import Mathlib

/-!
Verification of the offline gaze calibration and mapping pipeline of the
pupil repository (pupil_src/shared_modules): a shallow embedding of
`gaze_sections.py`, `gaze_producers.py`, `file_methods.py` and
`gaze_sections/` in Lean 4, together with theorems settling the frozen
claims about the natural-language specification.

Numeric convention: Python floats are embedded as rationals (ℚ); the
claims under consideration only use ordering, equality and exact
addition of coordinates/timestamps, never float rounding.  Frame indices
and ranges are embedded as integers (ℤ), matching Python's `int`.
-/

/-! ## String containment (Python's `in` operator on strings) -/

/-- True when the first char list is a prefix of the second
(char-by-char agreement). -/
def charsAgree : List Char → List Char → Bool
  | [], _ => true
  | _ :: _, [] => false
  | a :: as, b :: bs => a == b && charsAgree as bs

/-- True when `needle` occurs contiguously inside `hay`
(Python: `needle in hay` for strings). -/
def charsContains (needle : List Char) : List Char → Bool
  | [] => charsAgree needle []
  | c :: rest => charsAgree needle (c :: rest) || charsContains needle rest

/-- Python's substring test `needle in hay`. -/
def strIn (needle hay : String) : Bool :=
  charsContains needle.toList hay.toList

/-! ## Python list slicing `l[lo:hi]` with int bounds -/

/-- Normalize a Python slice bound against a list of length `n`:
negative indices count from the end, out-of-range indices clamp. -/
def pyBound (n : Nat) (i : Int) : Nat :=
  if i < 0 then ((n : Int) + i).toNat else min i.toNat n

/-- Python `l[lo:hi]`. -/
def pySlice (l : List α) (lo hi : Int) : List α :=
  (l.take (pyBound l.length hi)).drop (pyBound l.length lo)

/-! ## Data model (spec §3, embedded from the dicts used in the source) -/

/-- A pupil detection (upstream data; keys used by the core:
`timestamp`, `confidence`, `norm_pos`, `method`). -/
structure PupilDatum where
  timestamp : ℚ
  confidence : ℚ
  norm_pos : ℚ × ℚ
  method : String
  deriving DecidableEq

/-- Default pupil datum (used only as the `getD` fallback for an index
access the source performs on a list already known to be non-empty). -/
def default_pupil_datum : PupilDatum :=
  { timestamp := 0, confidence := 0, norm_pos := (0, 0), method := "" }

instance : Inhabited PupilDatum := ⟨default_pupil_datum⟩

/-- A gaze datum produced by a gaze mapper.  The Python dict key
`section` is embedded as `sectionLabel` (`section` is a Lean keyword). -/
structure GazeDatum where
  timestamp : ℚ
  norm_pos : ℚ × ℚ
  confidence : ℚ
  sectionLabel : String
  deriving DecidableEq

/-- A reference point (circle-marker or manually placed natural
feature), keyed by frame `index`. -/
structure ReferencePoint where
  index : Int
  timestamp : ℚ
  norm_pos : ℚ × ℚ
  screen_pos : ℚ × ℚ
  index_range : List Int
  deriving DecidableEq

/-- RGBA color tuple. -/
def Color : Type := ℚ × ℚ × ℚ × ℚ

deriving instance DecidableEq for Color

/-- Fitted gaze-mapper description (`{'name': ..., 'args': ...}` in the
source); the argument blob is opaque to the claims and kept abstract as
a name/args pair with rational-valued args. -/
structure MapperSpec where
  name : String
  args : List (String × ℚ)
  deriving DecidableEq

/-- The Section cache dict (`construct_cache` in gaze_sections.py). -/
structure SectionCache where
  label : String
  type : String
  calibration : Option MapperSpec
  calibration_range : Int × Int
  mapping_range : Int × Int
  mapping_method : String
  calibration_method : String
  status : String
  color : Color
  vis_mapping_error : Bool
  outlier_threshold : ℚ
  x_offset : ℚ
  y_offset : ℚ
  deriving DecidableEq

def CREATE_CALIBRATION : String := "Create calibration"
def IMPORT_CALIBRATION : String := "Import calibration"
def TEST_CALIBRATION : String := "Test calibration"

/-- First color of the global `colors` cycle in gaze_sections.py
(0.66015625, 0.859375, 0.4609375, 0.8). -/
def first_cycle_color : Color := (169/256, 220/256, 118/256, 4/5)

/-- `construct_cache(label, calib_range, map_range)` from
gaze_sections.py.  The source draws `color` from the global `colors`
cycle (stateful iterator); the color is passed explicitly here. -/
def construct_cache (label : String) (calib_range map_range : Int × Int)
    (color : Color) : SectionCache :=
  { label := label
    type := CREATE_CALIBRATION
    calibration := none
    calibration_range := calib_range
    mapping_range := map_range
    mapping_method := "3d"
    calibration_method := "circle_marker"
    status := "Not mapped"
    color := color
    vis_mapping_error := true
    outlier_threshold := 5
    x_offset := 0
    y_offset := 0 }

/-- In-memory Section state (`Section.__init__` in gaze_sections.py):
the cache dict, the fitted calibration, and the accumulated gaze
positions.  The bg-task handle, UI menu, and accuracy/precision display
strings are not part of the embedded state; whether a background task is
started is returned explicitly by `Section.calibrate`. -/
structure Section where
  cache : SectionCache
  calibration : Option MapperSpec
  gaze_positions : List GazeDatum
  deriving DecidableEq

/-! ## Background-task results (`Task_Result` namedtuple) -/

/-- The payload carried by a `Task_Result`: the calibration step yields
a fitted mapper (or nothing on failure), the mapping step yields a batch
of gaze data. -/
inductive TaskValue where
  | noValue
  | mapper (m : MapperSpec)
  | gaze (g : List GazeDatum)
  deriving DecidableEq

/-- `Task_Result = namedtuple('Task_Result', ['topic', 'status', 'value'])`. -/
structure TaskResult where
  topic : String
  status : String
  value : TaskValue
  deriving DecidableEq

/-- The arguments a `calibrate()` call hands to the background task
(`generator_args` in gaze_sections.py line 302); `some args` returned by
`Section.calibrate` means a `Task_Proxy` was started with these
arguments, `none` means no background work was started. -/
structure TaskArgs where
  label : String
  ref_list : List ReferencePoint
  calib_list : List PupilDatum
  map_list : List PupilDatum
  x_offset : ℚ
  y_offset : ℚ
  deriving DecidableEq

/-! ## Section.calibrate (gaze_sections.py lines 263–305) -/

/-- The environment `Section.calibrate` reads through `self.parent`:
per-frame pupil data and the two reference-point collections. -/
structure CalibrateEnv where
  pupil_positions_by_frame : List (List PupilDatum)
  circle_marker_positions : List ReferencePoint
  manual_ref_positions : List ReferencePoint
  deriving DecidableEq

/-- `list(chain.from_iterable(pupil_positions_by_frame[slice(*calibration_range)]))`. -/
def calibration_pupil_slice (env : CalibrateEnv) (s : Section) : List PupilDatum :=
  (pySlice env.pupil_positions_by_frame
    s.cache.calibration_range.1 s.cache.calibration_range.2).flatMap id

/-- `list(chain.from_iterable(pupil_positions_by_frame[slice(*mapping_range)]))`. -/
def mapping_pupil_slice (env : CalibrateEnv) (s : Section) : List PupilDatum :=
  (pySlice env.pupil_positions_by_frame
    s.cache.mapping_range.1 s.cache.mapping_range.2).flatMap id

/-- `ref_list = [r for r in ref_list if start <= r['index'] <= end]`
after selecting the collection by `calibration_method`.  A
`calibration_method` other than the two selector values would leave
`ref_list` unbound in the source (NameError); that case is unreachable
from `construct_cache` and the UI selector and is embedded as `[]`. -/
def calibration_ref_slice (env : CalibrateEnv) (s : Section) : List ReferencePoint :=
  let ref_all :=
    if s.cache.calibration_method = "circle_marker" then env.circle_marker_positions
    else if s.cache.calibration_method = "natural_features" then env.manual_ref_positions
    else []
  ref_all.filter (fun r =>
    s.cache.calibration_range.1 ≤ r.index && r.index ≤ s.cache.calibration_range.2)

/-- `median_pupil_datum_is_2d` (gaze_sections/calibration_section.py
lines 38–39): `'2d' in pupil_positions[len(pupil_positions)//2]['method']`.
The same expression appears inline in gaze_sections.py line 292. -/
def median_pupil_datum_is_2d (pupil_positions : List PupilDatum) : Bool :=
  strIn "2d" ((pupil_positions.getD (pupil_positions.length / 2) default_pupil_datum).method)

/-- Convenience: overwrite only the `status` entry of a Section's cache. -/
def Section.setStatus (msg : String) (s : Section) : Section :=
  { s with cache := { s.cache with status := msg } }

/-- `Section.calibrate` (gaze_sections.py lines 263–305).  Returns the
updated Section together with `some generator_args` when a background
`Task_Proxy` is started and `none` when the method fails fast.  The
initial `self.bg_task.cancel()` concerns only the task handle, which is
not part of the embedded state. -/
def Section.calibrate (env : CalibrateEnv) (s : Section) : Section × Option TaskArgs :=
  let s1 := Section.setStatus "Starting calibration" { s with gaze_positions := [] }
  let calib_list := calibration_pupil_slice env s
  let map_list := mapping_pupil_slice env s
  let ref_list := calibration_ref_slice env s
  if calib_list.isEmpty then
    (Section.setStatus "Calibration failed, no pupil data" s1, none)
  else if ref_list.isEmpty then
    (Section.setStatus "Calibration failed, no reference data" s1, none)
  else
    let s2 :=
      if s1.cache.mapping_method = "3d" && median_pupil_datum_is_2d calib_list then
        { s1 with cache := { s1.cache with mapping_method := "2d" } }
      else s1
    (s2, some { label := s2.cache.label
                ref_list := ref_list
                calib_list := calib_list
                map_list := map_list
                x_offset := s2.cache.x_offset
                y_offset := s2.cache.y_offset })

/-! ## map_in_background (gaze_sections.py lines 73–93) -/

/-- The per-point manual correction applied inside `map_in_background`:
`gp['norm_pos'][0] += x_offset; gp['norm_pos'][1] += y_offset;
gp['section'] = section_name`. -/
def correct_gaze (section_name : String) (x_offset y_offset : ℚ) (gp : GazeDatum) : GazeDatum :=
  { gp with
    norm_pos := (gp.norm_pos.1 + x_offset, gp.norm_pos.2 + y_offset)
    sectionLabel := section_name }

/-- `"Mapping..{}%".format(int(100*(idx+1)/len(map_list)))`; `int()` of
a non-negative float truncates, which is Nat division here. -/
def progress_msg (i n : Nat) : String :=
  "Mapping.." ++ toString (100 * i / n) ++ "%"

/-- Loop body of `map_in_background`, threading the `enumerate` index.
The gaze mapper (`calibration_routines`, outside the embedded modules)
is passed as the function `apply`. -/
def map_in_background_aux (apply : PupilDatum → List GazeDatum) (section_name : String)
    (n : Nat) (x_offset y_offset : ℚ) : Nat → List PupilDatum → List TaskResult
  | _, [] => [{ topic := "mapping", status := "Mapping complete.", value := .gaze [] }]
  | idx, datum :: rest =>
    let mapped := (apply datum).map (correct_gaze section_name x_offset y_offset)
    if mapped.isEmpty then
      map_in_background_aux apply section_name n x_offset y_offset (idx + 1) rest
    else
      { topic := "mapping", status := progress_msg (idx + 1) n, value := .gaze mapped } ::
        map_in_background_aux apply section_name n x_offset y_offset (idx + 1) rest

/-- `map_in_background(g_pool, section_name, mapper, map_list, x_offset,
y_offset)`: the full sequence of yielded `Task_Result`s. -/
def map_in_background (apply : PupilDatum → List GazeDatum) (section_name : String)
    (map_list : List PupilDatum) (x_offset y_offset : ℚ) : List TaskResult :=
  map_in_background_aux apply section_name map_list.length x_offset y_offset 0 map_list

/-- `Section.handle_task_result` (gaze_sections.py lines 316–322). -/
def Section.handle_task_result (s : Section) (r : TaskResult) : Section :=
  let s' := Section.setStatus r.status s
  if r.topic = "calibration" then
    match r.value with
    | .mapper m => { s' with calibration := some m }
    | _ => s'
  else if r.topic = "mapping" then
    match r.value with
    | .gaze g => { s' with gaze_positions := s'.gaze_positions ++ g }
    | _ => s'
  else s'

/-- Draining a list of task results through `handle_task_result`
(the loop in `Section.recent_events`). -/
def Section.integrate_results (s : Section) (results : List TaskResult) : Section :=
  results.foldl Section.handle_task_result s

/-- The UI slider write `self.cache['x_offset'] = v` (the `Slider`
bound to the cache dict in `Section.update_ui`). -/
def Section.set_x_offset (v : ℚ) (s : Section) : Section :=
  { s with cache := { s.cache with x_offset := v } }

/-- The UI slider write `self.cache['y_offset'] = v`. -/
def Section.set_y_offset (v : ℚ) (s : Section) : Section :=
  { s with cache := { s.cache with y_offset := v } }

/-! ## make_section_label (gaze_sections.py lines 96–103) -/

/-- `'Unnamed section {}'.format(counter)`. -/
def unnamed_section_label (counter : Nat) : String :=
  "Unnamed section " ++ Nat.repr counter

/-- The `while True` loop of `make_section_label`: try increasing
counters until a label is free.  The loop always terminates because the
candidate labels are pairwise distinct and the collection is finite; the
fuel argument makes the recursion structural, and `make_section_label`
supplies enough fuel for the fuel-exhausted branch to be unreachable
(proved in `unnamed_label_exists_below`). -/
def make_section_label_loop (existing : List String) : Nat → Nat → String
  | counter, 0 => unnamed_section_label counter
  | counter, fuel + 1 =>
    if unnamed_section_label counter ∈ existing then
      make_section_label_loop existing (counter + 1) fuel
    else
      unnamed_section_label counter

/-- `make_section_label(existing_labels=())`. -/
def make_section_label (existing : List String) : String :=
  make_section_label_loop existing 1 (existing.length + 1)

/-! ## Section.validate_label (gaze_sections.py lines 217–225) -/

/-- `Section.validate_label`, acting on the parent's ordered section
caches with the renamed section in the middle (`parent.sections =
pre ++ [self] ++ post`).  Returns the new list of section caches and
whether the duplicate-label warning was logged.  The on-disk artifact
rename (`rename_saved_calibration`) is file-system work outside this
state.  The membership test in the source iterates over all of
`parent.sections`, `self` included, exactly as embedded here. -/
def validate_label (pre post : List SectionCache) (self : SectionCache)
    (input : String) : List SectionCache × Bool :=
  if input = self.label then
    (pre ++ self :: post, false)
  else if input ∈ (pre ++ self :: post).map SectionCache.label then
    (pre ++ self :: post, true)
  else
    (pre ++ { self with label := input } :: post, false)

/-! ## Offline_Calibration (gaze_producers.py) -/

def session_data_version : Int := 10

/-- The persisted session cache
(`{'version': ..., 'sections': ..., 'circle_marker_positions': ...,
'manual_ref_positions': ...}`). -/
structure SessionData where
  version : Int
  sections : List SectionCache
  circle_marker_positions : List ReferencePoint
  manual_ref_positions : List ReferencePoint
  deriving DecidableEq

/-- Manager state of `Offline_Calibration` (the fields the claims are
about: the ordered sections, the two reference collections and the
marker-detection progress). -/
structure OfflineCalibState where
  sections : List Section
  circle_marker_positions : List ReferencePoint
  manual_ref_positions : List ReferencePoint
  detection_progress : ℚ
  deriving DecidableEq

/-- `Section(self, cache=cache)`: a Section restored from a cache dict;
gaze positions and the in-memory calibration start empty and are
recomputed. -/
def section_of_cache (c : SectionCache) : Section :=
  { cache := c, calibration := none, gaze_positions := [] }

/-- The fallback state of `Offline_Calibration.__init__` (lines
147–153): one default section spanning the full timeline, empty
reference collections.  The default section's color comes from the
global color cycle, whose first value is `first_cycle_color`. -/
def default_full_range_state (timestamps : List ℚ) : OfflineCalibState :=
  let max_idx : Int := (timestamps.length : Int) - 1
  { sections := [section_of_cache
      (construct_cache (make_section_label []) (0, max_idx) (0, max_idx) first_cycle_color)]
    circle_marker_positions := []
    manual_ref_positions := []
    detection_progress := 0 }

/-- `Offline_Calibration.__init__` (gaze_producers.py lines 132–162).
`loaded = none` embeds `FileNotFoundError`; a version mismatch trips the
`assert False` and lands in the same fallback.  On a successful load the
sections are restored from their cache dicts and `detection_progress`
is set from whether marker positions are present; the subsequent
`section.calibrate()` calls (only reached when marker positions are
non-empty) are modelled separately by `Section.calibrate`. -/
def offline_calibration_init (timestamps : List ℚ)
    (loaded : Option SessionData) : OfflineCalibState :=
  match loaded with
  | some sd =>
    if sd.version = session_data_version then
      { sections := sd.sections.map section_of_cache
        circle_marker_positions := sd.circle_marker_positions
        manual_ref_positions := sd.manual_ref_positions
        detection_progress := if sd.circle_marker_positions.isEmpty then 0 else 100 }
    else default_full_range_state timestamps
  | none => default_full_range_state timestamps

/-- `Offline_Calibration.save_cache` (gaze_producers.py lines 419–430):
the session dict passed to `save_object`. -/
def save_cache (st : OfflineCalibState) : SessionData :=
  { sections := st.sections.map Section.cache
    version := session_data_version
    manual_ref_positions := st.manual_ref_positions
    circle_marker_positions :=
      if st.detection_progress = 100 then st.circle_marker_positions else [] }

/-! ## Offline_Calibration.on_click (gaze_producers.py lines 253–267) -/

def GLFW_PRESS : Int := 1

/-- What `on_click` reads from `g_pool`: the current frame index, the
capture frame size and the master timestamps. -/
structure ClickEnv where
  frame_index : Int
  frame_size : ℚ × ℚ
  timestamps : List ℚ
  deriving DecidableEq

/-- Squared Euclidean distance; the source compares
`np.sqrt(dx**2 + dy**2) < 15`, which for real inputs is equivalent to
`dx**2 + dy**2 < 225`. -/
def dist_sq (p q : ℚ × ℚ) : ℚ :=
  (p.1 - q.1) ^ 2 + (p.2 - q.2) ^ 2

/-- The new manual reference point built by `on_click`.  `normalize`
(methods.py, outside the embedded modules) is passed as a function;
`timestamps[frame_index]` is embedded with a `getD` fallback for the
out-of-range case the source would raise on. -/
def new_manual_ref (env : ClickEnv) (normalizePos : ℚ × ℚ → ℚ × ℚ)
    (pos : ℚ × ℚ) : ReferencePoint :=
  { screen_pos := pos
    norm_pos := normalizePos pos
    index := env.frame_index
    index_range := (List.range 10).map (fun i => env.frame_index - 5 + (i : Int))
    timestamp := env.timestamps.getD env.frame_index.toNat 0 }

/-- `Offline_Calibration.on_click`: in natural-feature edit mode a press
either removes the first existing reference point of the current frame
within 15 pixels of the click, or appends a new one at the end of
`manual_ref_positions`. -/
def on_click (env : ClickEnv) (normalizePos : ℚ × ℚ → ℚ × ℚ)
    (manual_ref_positions : List ReferencePoint) (pos : ℚ × ℚ)
    (action : Int) (manual_ref_edit_mode : Bool) : List ReferencePoint :=
  if action = GLFW_PRESS ∧ manual_ref_edit_mode then
    let manual_refs_in_frame :=
      manual_ref_positions.filter (fun r => env.frame_index == r.index)
    match manual_refs_in_frame.find? (fun r => dist_sq pos r.screen_pos < 225) with
    | some r => manual_ref_positions.erase r
    | none => manual_ref_positions ++ [new_manual_ref env normalizePos pos]
  else manual_ref_positions

/-- Sortedness of the manual reference collection by frame index
(the invariant claimed for it). -/
def SortedByIndex (l : List ReferencePoint) : Prop :=
  l.Pairwise (fun a b => a.index ≤ b.index)

instance : DecidablePred SortedByIndex := fun l =>
  inferInstanceAs (Decidable (l.Pairwise _))

/-! ## correlate_and_publish (gaze_producers.py lines 295–299) -/

/-- Timestamp order on gaze data. -/
def tsLE (a b : GazeDatum) : Prop := a.timestamp ≤ b.timestamp

instance : DecidableRel tsLE := fun a b =>
  inferInstanceAs (Decidable (a.timestamp ≤ b.timestamp))

instance : IsTotal GazeDatum tsLE := ⟨fun a b => le_total a.timestamp b.timestamp⟩

instance : IsTrans GazeDatum tsLE := ⟨fun _ _ _ => le_trans⟩

/-- Python's `sorted(..., key=lambda d: d['timestamp'])` is a stable
sort by timestamp; embedded as stable insertion sort. -/
def sorted_by_timestamp (l : List GazeDatum) : List GazeDatum :=
  List.insertionSort tsLE l

/-- The gaze stream published by `correlate_and_publish`:
`sorted(chain.from_iterable(s.gaze_positions for s in sections), key=timestamp)`.
The subsequent `correlate_data` frame correlation lives in
player_methods.py, outside the embedded modules. -/
def correlate_and_publish_gaze (sections : List Section) : List GazeDatum :=
  sorted_by_timestamp (sections.flatMap Section.gaze_positions)

/-! ## save_object (file_methods.py lines 141–145) -/

/-- Observable contents of a file while a writer may be at work:
either a complete serialized object or a truncated/partial file. -/
inductive FileContent (α : Type) where
  | complete (obj : α)
  | truncated
  deriving DecidableEq

/-- The two paths `save_object`-style code can touch: the target path
and a temporary sibling. -/
structure SaveFS (α : Type) where
  target : Option (FileContent α)
  temp : Option (FileContent α)
  deriving DecidableEq

/-- The externally visible file-system steps of `save_object`
(file_methods.py): step 0 is `open(file_path, 'wb')`, which truncates
the target in place; step 1 is `msgpack.pack`, completing the contents.
There is no temporary file and no rename. -/
def save_object_step (obj : α) : Nat → SaveFS α → SaveFS α
  | 0, fs => { fs with target := some .truncated }
  | 1, fs => { fs with target := some (.complete obj) }
  | _ + 2, fs => fs

def save_object_num_steps : Nat := 2

/-- State of the file system after the first `k` steps of `save_object`
(a crash after step `k` leaves exactly this state). -/
def save_object_run (obj : α) (k : Nat) (fs : SaveFS α) : SaveFS α :=
  (List.range k).foldl (fun s i => save_object_step obj i s) fs

/-- `load_object` on the target path: only a complete file is loadable;
a truncated or partial msgpack stream raises (and the pickle fallback
fails too), embedded as `none`. -/
def load_object (fs : SaveFS α) : Option α :=
  match fs.target with
  | some (.complete o) => some o
  | _ => none

/-- Modelled from the spec: the write-to-temp-then-rename scheme §4.7
prescribes for `save(object, path)` ("write to temp + rename, or
equivalent"); this code is absent from file_methods.py and is included
only to contrast with `save_object_step`. -/
def atomic_save_step (obj : α) : Nat → SaveFS α → SaveFS α
  | 0, fs => { fs with temp := some .truncated }
  | 1, fs => { fs with temp := some (.complete obj) }
  | 2, fs => { target := fs.temp, temp := none }
  | _ + 3, fs => fs

/-- State after the first `k` steps of the spec's atomic save. -/
def atomic_save_run (obj : α) (k : Nat) (fs : SaveFS α) : SaveFS α :=
  (List.range k).foldl (fun s i => atomic_save_step obj i s) fs

/-! ## Decimal parsing (to invert `Nat.repr` for the label lemmas) -/

/-- Numeric value of a decimal digit character. -/
def digitVal (c : Char) : Nat := c.toNat - 48

/-- Value of a most-significant-first digit string. -/
def parseChars (l : List Char) : Nat :=
  l.foldl (fun a c => 10 * a + digitVal c) 0

/-! ## Concrete scenario data for the counterexamples and witnesses -/

/-- A pupil datum carrying the 2d detector tag (the detector writes
method strings such as "2d c++"). -/
def pupil_2d : PupilDatum :=
  { timestamp := 1, confidence := 1, norm_pos := (0, 0), method := "2d c++" }

/-- A stored gaze point from an earlier mapping run. -/
def gaze_prev : GazeDatum :=
  { timestamp := 1, norm_pos := (0, 0), confidence := 1, sectionLabel := "Test section" }

/-- Environment with pupil data in frame 0 but no reference points. -/
def env_no_refs : CalibrateEnv :=
  { pupil_positions_by_frame := [[pupil_2d]]
    circle_marker_positions := []
    manual_ref_positions := [] }

/-- Environment with neither pupil data nor reference points. -/
def env_no_data : CalibrateEnv :=
  { pupil_positions_by_frame := []
    circle_marker_positions := []
    manual_ref_positions := [] }

/-- A freshly constructed full-range section that already holds one
gaze point from a previous mapping run. -/
def sec_with_gaze : Section :=
  { cache := construct_cache "Test section" (0, 1) (0, 1) first_cycle_color
    calibration := none
    gaze_positions := [gaze_prev] }

/-- Raw gaze datum as produced by a gaze mapper before manual
correction. -/
def gaze_raw : GazeDatum :=
  { timestamp := 1, norm_pos := (2, 3), confidence := 1, sectionLabel := "" }

/-- A gaze mapper stub returning one fixed gaze point per pupil datum. -/
def mapper_stub : PupilDatum → List GazeDatum := fun _ => [gaze_raw]

/-- Section state after a full mapping run of `mapper_stub` over one
pupil datum with both offsets 0 (so the stored point is `gaze_raw`
shifted by (0,0) and tagged with the section label). -/
def sec_mapped : Section :=
  Section.integrate_results
    { cache := construct_cache "S" (0, 1) (0, 1) first_cycle_color
      calibration := none
      gaze_positions := [] }
    (map_in_background mapper_stub "S" [default_pupil_datum] 0 0)

/-- `sec_mapped` after the user moves the x-offset slider to 1. -/
def sec_mapped_shifted : Section :=
  Section.set_x_offset 1 sec_mapped

/-- A manual reference point at frame 5. -/
def ref_at_5 : ReferencePoint :=
  { index := 5, timestamp := 0, norm_pos := (0, 0), screen_pos := (0, 0), index_range := [] }

/-- A manual reference point at frame 3 (used to exercise removal from
the middle of a sorted collection). -/
def ref_at_3 : ReferencePoint :=
  { index := 3, timestamp := 0, norm_pos := (0, 0), screen_pos := (0, 0), index_range := [] }

/-- Click environment positioned at frame 2 (earlier than `ref_at_5`). -/
def click_env_frame2 : ClickEnv :=
  { frame_index := 2, frame_size := (100, 100), timestamps := [0, 0, 0] }

/-- A file system whose target path holds a previously saved object. -/
def fs_with_old : SaveFS Nat :=
  { target := some (.complete 7), temp := none }

/-! # Theorems -/

/-! ### `Nat.repr` is injective, via decimal parsing -/

theorem digitVal_digitChar (d : Nat) (h : d < 10) : digitVal (Nat.digitChar d) = d := by
  interval_cases d <;> rfl

theorem foldl_parse_shift (l : List Char) (a : Nat) :
    l.foldl (fun a c => 10 * a + digitVal c) a = a * 10 ^ l.length + parseChars l := by
  induction l generalizing a with
  | nil => simp [parseChars]
  | cons c cs ih =>
    have hlhs : (c :: cs).foldl (fun a c => 10 * a + digitVal c) a
        = cs.foldl (fun a c => 10 * a + digitVal c) (10 * a + digitVal c) := rfl
    have hp : parseChars (c :: cs) = cs.foldl (fun a c => 10 * a + digitVal c) (digitVal c) := by
      simp [parseChars]
    rw [hlhs, ih, hp, ih (digitVal c)]
    simp [List.length_cons, pow_succ]
    ring

theorem parse_toDigitsCore :
    ∀ (fuel n : Nat) (acc : List Char), n < fuel →
      parseChars (Nat.toDigitsCore 10 fuel n acc) = n * 10 ^ acc.length + parseChars acc := by
  intro fuel
  induction fuel with
  | zero => intro n acc h; exact absurd h (Nat.not_lt_zero n)
  | succ f ih =>
    intro n acc h
    by_cases h10 : n / 10 = 0
    · have hunf : Nat.toDigitsCore 10 (f + 1) n acc = Nat.digitChar (n % 10) :: acc := by
        simp [Nat.toDigitsCore, h10]
      rw [hunf]
      have hp : parseChars (Nat.digitChar (n % 10) :: acc)
          = acc.foldl (fun a c => 10 * a + digitVal c) (digitVal (Nat.digitChar (n % 10))) := by
        simp [parseChars]
      rw [hp, foldl_parse_shift, digitVal_digitChar (n % 10) (Nat.mod_lt n (by omega))]
      have hn : n % 10 = n := by omega
      rw [hn]
    · have hunf : Nat.toDigitsCore 10 (f + 1) n acc
          = Nat.toDigitsCore 10 f (n / 10) (Nat.digitChar (n % 10) :: acc) := by
        simp [Nat.toDigitsCore, h10]
      have hlt : n / 10 < f := by
        have h1 : n / 10 < n := Nat.div_lt_self (by omega) (by omega)
        omega
      rw [hunf, ih (n / 10) (Nat.digitChar (n % 10) :: acc) hlt]
      have hp : parseChars (Nat.digitChar (n % 10) :: acc)
          = acc.foldl (fun a c => 10 * a + digitVal c) (digitVal (Nat.digitChar (n % 10))) := by
        simp [parseChars]
      rw [hp, foldl_parse_shift, digitVal_digitChar (n % 10) (Nat.mod_lt n (by omega))]
      conv_rhs => rw [← Nat.div_add_mod n 10]
      simp [List.length_cons, pow_succ]
      ring

theorem parseChars_repr (n : Nat) : parseChars (Nat.repr n).data = n := by
  have h0 : (Nat.repr n).data = Nat.toDigits 10 n := rfl
  have h1 : Nat.toDigits 10 n = Nat.toDigitsCore 10 (n + 1) n [] := rfl
  rw [h0, h1, parse_toDigitsCore (n + 1) n [] (Nat.lt_succ_self n)]
  simp [parseChars]

theorem repr_injective : Function.Injective Nat.repr := by
  intro a b h
  have h2 : parseChars (Nat.repr a).data = parseChars (Nat.repr b).data := by rw [h]
  rwa [parseChars_repr, parseChars_repr] at h2

theorem unnamed_section_label_injective : Function.Injective unnamed_section_label := by
  intro a b h
  apply repr_injective
  have hd := congrArg String.data h
  rw [unnamed_section_label, unnamed_section_label, String.data_append, String.data_append] at hd
  have hdd := List.append_cancel_left hd
  exact String.ext hdd

/-! ### The `make_section_label` search -/

theorem unnamed_label_exists_below (existing : List String) :
    ∃ j, j < existing.length + 1 ∧ unnamed_section_label (1 + j) ∉ existing := by
  by_contra hcon
  push_neg at hcon
  have hsub : ((List.range (existing.length + 1)).map
      (fun j => unnamed_section_label (1 + j))) ⊆ existing := by
    intro x hx
    simp only [List.mem_map, List.mem_range] at hx
    obtain ⟨j, hj, rfl⟩ := hx
    exact hcon j hj
  have hnd : ((List.range (existing.length + 1)).map
      (fun j => unnamed_section_label (1 + j))).Nodup := by
    refine List.Nodup.map ?_ (List.nodup_range _)
    intro a b hab
    have := unnamed_section_label_injective hab
    omega
  have hle := (List.subperm_of_subset hnd hsub).length_le
  simp only [List.length_map, List.length_range] at hle
  omega

theorem make_section_label_loop_spec (existing : List String) :
    ∀ (fuel counter : Nat),
      (∃ j, j < fuel ∧ unnamed_section_label (counter + j) ∉ existing) →
      ∃ j, j < fuel ∧
        make_section_label_loop existing counter fuel = unnamed_section_label (counter + j) ∧
        unnamed_section_label (counter + j) ∉ existing ∧
        ∀ i, i < j → unnamed_section_label (counter + i) ∈ existing := by
  intro fuel
  induction fuel with
  | zero => rintro counter ⟨j, hj, _⟩; omega
  | succ f ih =>
    rintro counter ⟨j, hj, hfree⟩
    by_cases hmem : unnamed_section_label counter ∈ existing
    · have hj0 : j ≠ 0 := by
        rintro rfl
        simp only [Nat.add_zero] at hfree
        exact hfree hmem
      obtain ⟨j', hj', heq, hfree', hmin'⟩ := ih (counter + 1)
        ⟨j - 1, by omega, by
          have hshift : counter + 1 + (j - 1) = counter + j := by omega
          rw [hshift]; exact hfree⟩
      refine ⟨j' + 1, by omega, ?_, ?_, ?_⟩
      · have hunf : make_section_label_loop existing counter (f + 1)
            = make_section_label_loop existing (counter + 1) f := by
          simp [make_section_label_loop, hmem]
        rw [hunf, heq]
        congr 1
        omega
      · have hshift : counter + (j' + 1) = counter + 1 + j' := by omega
        rw [hshift]; exact hfree'
      · intro i hi
        cases i with
        | zero => simpa using hmem
        | succ i' =>
          have hshift : counter + (i' + 1) = counter + 1 + i' := by omega
          rw [hshift]
          exact hmin' i' (by omega)
    · refine ⟨0, by omega, ?_, by simpa using hmem, by omega⟩
      simp [make_section_label_loop, hmem]

/-- C10: for every finite collection of existing labels,
`make_section_label` returns `'Unnamed section k'` for the smallest
positive integer `k` whose label is not in the collection; in
particular the returned label is never an existing label. -/
theorem claimC10_make_section_label_fresh (existing : List String) :
    ∃ k, 1 ≤ k ∧ make_section_label existing = unnamed_section_label k ∧
      unnamed_section_label k ∉ existing ∧
      ∀ j, 1 ≤ j → j < k → unnamed_section_label j ∈ existing := by
  obtain ⟨j0, hj0, hfree0⟩ := unnamed_label_exists_below existing
  obtain ⟨j, hj, heq, hfree, hmin⟩ :=
    make_section_label_loop_spec existing (existing.length + 1) 1 ⟨j0, hj0, hfree0⟩
  refine ⟨1 + j, by omega, ?_, hfree, ?_⟩
  · simpa [make_section_label] using heq
  · intro i h1 hik
    have hi := hmin (i - 1) (by omega)
    have hshift : 1 + (i - 1) = i := by omega
    rwa [hshift] at hi

/-! ### Stability of the timestamp sort -/

theorem filter_orderedInsert_ts (x : GazeDatum) (l : List GazeDatum) (t : ℚ) :
    (List.orderedInsert tsLE x l).filter (fun g => decide (g.timestamp = t)) =
      (if x.timestamp = t then [x] else []) ++
        l.filter (fun g => decide (g.timestamp = t)) := by
  induction l with
  | nil =>
    by_cases hx : x.timestamp = t <;> simp [List.orderedInsert, hx]
  | cons y ys ih =>
    by_cases hr : tsLE x y
    · rw [List.orderedInsert, if_pos hr]
      by_cases hx : x.timestamp = t <;> simp [List.filter, hx]
    · rw [List.orderedInsert, if_neg hr]
      by_cases hy : y.timestamp = t
      · have hx : ¬x.timestamp = t := by
          intro hx
          exact hr (le_of_eq (hx.trans hy.symm))
        simp [List.filter, hy, hx, ih]
      · by_cases hx : x.timestamp = t <;> simp [List.filter, hy, hx, ih]

theorem filter_sorted_by_timestamp (l : List GazeDatum) (t : ℚ) :
    (sorted_by_timestamp l).filter (fun g => decide (g.timestamp = t)) =
      l.filter (fun g => decide (g.timestamp = t)) := by
  induction l with
  | nil => rfl
  | cons x xs ih =>
    have hunf : sorted_by_timestamp (x :: xs)
        = List.orderedInsert tsLE x (sorted_by_timestamp xs) := rfl
    rw [hunf, filter_orderedInsert_ts, ih]
    by_cases hx : x.timestamp = t <;> simp [List.filter, hx]

/-- C3: for every collection of Sections (sections with empty
`gaze_positions` included), the gaze stream published by
`correlate_and_publish` is the concatenation of all Sections'
`gaze_positions` sorted non-decreasing by timestamp, with equal
timestamps kept in original section order: the output is sorted, is a
permutation of the concatenation, and for every timestamp the output
lists the points of that timestamp in exactly the concatenation's
order (stable sort). -/
theorem claimC3_merge_stable_sorted (sections : List Section) :
    List.Sorted tsLE (correlate_and_publish_gaze sections) ∧
    List.Perm (correlate_and_publish_gaze sections)
      (sections.flatMap Section.gaze_positions) ∧
    ∀ t : ℚ,
      (correlate_and_publish_gaze sections).filter (fun g => decide (g.timestamp = t)) =
        (sections.flatMap Section.gaze_positions).filter
          (fun g => decide (g.timestamp = t)) := by
  refine ⟨?_, ?_, ?_⟩
  · exact List.sorted_insertionSort tsLE _
  · exact List.perm_insertionSort tsLE _
  · intro t
    exact filter_sorted_by_timestamp _ t

/-! ### Calibration fail-fast behaviour -/

/-- C1 (amended): if the calibration reference slice is empty and the
calibration pupil slice is non-empty, `calibrate()` leaves the Section
with status `Calibration failed, no reference data` (which mentions
"no reference data") and starts no background task — but it resets
`gaze_positions` to the empty list rather than leaving it unchanged
(the reset happens before the fail-fast checks).  When the pupil slice
is empty as well, the no-pupil-data check fires first instead. -/
theorem claimC1_empty_ref_slice (env : CalibrateEnv) (s : Section)
    (href : calibration_ref_slice env s = [])
    (hcal : calibration_pupil_slice env s ≠ []) :
    (Section.calibrate env s).1.cache.status = "Calibration failed, no reference data" ∧
    strIn "no reference data" (Section.calibrate env s).1.cache.status = true ∧
    (Section.calibrate env s).2 = none ∧
    (Section.calibrate env s).1.gaze_positions = [] := by
  have hstat : (Section.calibrate env s).1.cache.status
      = "Calibration failed, no reference data" := by
    rw [Section.calibrate]
    simp [List.isEmpty_iff, href, hcal, Section.setStatus]
  refine ⟨hstat, ?_, ?_, ?_⟩
  · rw [hstat]; decide
  · rw [Section.calibrate]
    simp [List.isEmpty_iff, href, hcal]
  · rw [Section.calibrate]
    simp [List.isEmpty_iff, href, hcal, Section.setStatus]

/-- C1 witness: the amended statement instantiated at a concrete
section with pupil data, no reference data and a previously stored
gaze point. -/
theorem claimC1_empty_ref_slice_witness :
    calibration_ref_slice env_no_refs sec_with_gaze = [] ∧
    calibration_pupil_slice env_no_refs sec_with_gaze ≠ [] ∧
    ((Section.calibrate env_no_refs sec_with_gaze).1.cache.status
        = "Calibration failed, no reference data" ∧
      strIn "no reference data"
        (Section.calibrate env_no_refs sec_with_gaze).1.cache.status = true ∧
      (Section.calibrate env_no_refs sec_with_gaze).2 = none ∧
      (Section.calibrate env_no_refs sec_with_gaze).1.gaze_positions = []) :=
  ⟨by decide, by decide,
    claimC1_empty_ref_slice env_no_refs sec_with_gaze (by decide) (by decide)⟩

/-- C1 counterexample to the claim as stated: at `sec_with_gaze` (one
stored gaze point) with an empty reference slice, `calibrate()` does
not leave `gaze_positions` unchanged — it clears them; and when the
pupil slice is empty as well, the status message does not mention
"no reference data" (the no-pupil-data check fires first). -/
theorem claimC1_cex :
    (calibration_ref_slice env_no_refs sec_with_gaze = [] ∧
      (Section.calibrate env_no_refs sec_with_gaze).1.gaze_positions
        ≠ sec_with_gaze.gaze_positions) ∧
    (calibration_ref_slice env_no_data sec_with_gaze = [] ∧
      strIn "no reference data"
        (Section.calibrate env_no_data sec_with_gaze).1.cache.status = false ∧
      (Section.calibrate env_no_data sec_with_gaze).1.cache.status
        = "Calibration failed, no pupil data") := by
  decide

/-- C4: the 3d→2d downgrade rule of `calibrate()`.  For every
calibration start that proceeds to fitting (both slices non-empty): if
`mapping_method` is "3d" and the median pupil datum of the calibration
pupil slice (the element at index `len//2`) uses a 2d detection
method, the mapping method is downgraded to "2d" before fitting; in
every other case (including the fail-fast paths, which never reach the
downgrade) the configured mapping method is left unchanged. -/
theorem claimC4_downgrade (env : CalibrateEnv) (s : Section) :
    (Section.calibrate env s).1.cache.mapping_method =
      if calibration_pupil_slice env s ≠ [] ∧ calibration_ref_slice env s ≠ [] ∧
          s.cache.mapping_method = "3d" ∧
          median_pupil_datum_is_2d (calibration_pupil_slice env s) = true
      then "2d"
      else s.cache.mapping_method := by
  by_cases hc : calibration_pupil_slice env s = []
  · simp [Section.calibrate, Section.setStatus, List.isEmpty_iff, hc]
  · by_cases hr : calibration_ref_slice env s = []
    · simp [Section.calibrate, Section.setStatus, List.isEmpty_iff, hc, hr]
    · by_cases h3 : s.cache.mapping_method = "3d"
      · by_cases hmed : median_pupil_datum_is_2d (calibration_pupil_slice env s) = true
        · simp [Section.calibrate, Section.setStatus, List.isEmpty_iff, hc, hr, h3, hmed]
        · rw [Bool.not_eq_true] at hmed
          simp [Section.calibrate, Section.setStatus, List.isEmpty_iff, hc, hr, h3, hmed]
      · simp [Section.calibrate, Section.setStatus, List.isEmpty_iff, hc, hr, h3]

/-! ### Offsets are baked in at mapping time -/

theorem integrate_map_in_background_aux (apply : PupilDatum → List GazeDatum)
    (nm : String) (n : Nat) (xo yo : ℚ) :
    ∀ (ml : List PupilDatum) (idx : Nat) (s : Section),
      (Section.integrate_results s
          (map_in_background_aux apply nm n xo yo idx ml)).gaze_positions
        = s.gaze_positions ++ (ml.flatMap apply).map (correct_gaze nm xo yo) := by
  intro ml
  induction ml with
  | nil =>
    intro idx s
    simp [map_in_background_aux, Section.integrate_results, Section.handle_task_result,
      Section.setStatus]
  | cons d rest ih =>
    intro idx s
    by_cases hm : ((apply d).map (correct_gaze nm xo yo)).isEmpty
    · have hmap : (apply d).map (correct_gaze nm xo yo) = [] := by
        simpa [List.isEmpty_iff] using hm
      simp [map_in_background_aux, hm, ih, hmap]
    · have hstep : Section.integrate_results s
          (map_in_background_aux apply nm n xo yo idx (d :: rest))
          = Section.integrate_results
              (Section.handle_task_result s
                { topic := "mapping", status := progress_msg (idx + 1) n,
                  value := .gaze ((apply d).map (correct_gaze nm xo yo)) })
              (map_in_background_aux apply nm n xo yo (idx + 1) rest) := by
        simp [map_in_background_aux, hm, Section.integrate_results]
      rw [hstep, ih]
      simp [Section.handle_task_result, Section.setStatus]

/-- C2 (amended): offsets are applied destructively at mapping time,
not at read time.  Moving the `x_offset`/`y_offset` sliders only
updates the cache fields and leaves the stored (and published) gaze
positions unchanged; the new offset takes effect only when mapping
re-runs, and a mapping run adds the offset pair exactly once to each
raw mapped point (so a single run never double-applies an offset). -/
theorem claimC2_offsets_applied_at_mapping_time (v w : ℚ) (s : Section)
    (apply : PupilDatum → List GazeDatum) (nm : String)
    (map_list : List PupilDatum) (xo yo : ℚ) :
    (Section.set_x_offset v s).gaze_positions = s.gaze_positions ∧
    (Section.set_y_offset w s).gaze_positions = s.gaze_positions ∧
    correlate_and_publish_gaze [Section.set_x_offset v s]
      = correlate_and_publish_gaze [s] ∧
    (Section.integrate_results s
        (map_in_background apply nm map_list xo yo)).gaze_positions
      = s.gaze_positions ++ (map_list.flatMap apply).map (correct_gaze nm xo yo) := by
  refine ⟨rfl, rfl, rfl, ?_⟩
  exact integrate_map_in_background_aux apply nm map_list.length xo yo map_list 0 s

/-- C2 counterexample to the claim as stated: `sec_mapped` stores the
raw point (2, 3) mapped with offsets (0, 0); after moving the x-offset
slider to 1, re-reading the gaze positions still yields (2 + 0, 3 + 0)
— not (3, 3), the raw position shifted by the new offset — so the new
offset is not reflected without re-running mapping. -/
theorem claimC2_cex :
    sec_mapped_shifted.gaze_positions = sec_mapped.gaze_positions ∧
    sec_mapped_shifted.cache.x_offset = 1 ∧
    sec_mapped_shifted.gaze_positions.map GazeDatum.norm_pos
      = [((2 : ℚ) + 0, (3 : ℚ) + 0)] ∧
    sec_mapped_shifted.gaze_positions.map GazeDatum.norm_pos ≠ [((3 : ℚ), 3)] := by
  refine ⟨rfl, rfl, rfl, ?_⟩
  have hv : sec_mapped_shifted.gaze_positions.map GazeDatum.norm_pos
      = [((2 : ℚ) + 0, (3 : ℚ) + 0)] := rfl
  rw [hv]
  simp

/-! ### Session-cache version gate -/

/-- C5: loading a session cache whose stored version differs from
`session_data_version` discards the entire cache: the manager is reset
to exactly one default section labelled "Unnamed section 1" whose
calibration and mapping ranges span the full timeline (0 to max
index), with empty circle-marker and manual reference collections. -/
theorem claimC5_version_mismatch_resets (timestamps : List ℚ) (sd : SessionData)
    (h : sd.version ≠ session_data_version) :
    offline_calibration_init timestamps (some sd) = default_full_range_state timestamps ∧
    (offline_calibration_init timestamps (some sd)).sections =
      [section_of_cache (construct_cache "Unnamed section 1"
        (0, (timestamps.length : Int) - 1) (0, (timestamps.length : Int) - 1)
        first_cycle_color)] ∧
    (offline_calibration_init timestamps (some sd)).circle_marker_positions = [] ∧
    (offline_calibration_init timestamps (some sd)).manual_ref_positions = [] := by
  have h0 : offline_calibration_init timestamps (some sd)
      = default_full_range_state timestamps := by
    simp [offline_calibration_init, h]
  have hlbl : make_section_label [] = "Unnamed section 1" := rfl
  refine ⟨h0, ?_, ?_, ?_⟩ <;> rw [h0] <;> simp [default_full_range_state, hlbl]

/-- C5 witness: the reset at a concrete 3-frame timeline and a cache
stored with version 9. -/
theorem claimC5_version_mismatch_resets_witness :
    ({ version := 9, sections := [], circle_marker_positions := [],
        manual_ref_positions := [] } : SessionData).version ≠ session_data_version ∧
    offline_calibration_init ([0, 0, 0] : List ℚ)
        (some { version := 9, sections := [], circle_marker_positions := [],
                manual_ref_positions := [] })
      = default_full_range_state [0, 0, 0] :=
  ⟨by decide,
    (claimC5_version_mismatch_resets [0, 0, 0]
      { version := 9, sections := [], circle_marker_positions := [],
        manual_ref_positions := [] } (by decide)).1⟩

/-! ### save_object is not crash-safe -/

/-- C6 counterexample to the claim as stated: with an old object saved
at the target path, crashing `save_object` after its first step (the
truncating `open(file_path, 'wb')`) leaves the prior contents not
loadable — there is no temp-file/rename step protecting them. -/
theorem claimC6_cex :
    load_object fs_with_old = some 7 ∧
    load_object (save_object_run 0 1 fs_with_old) = none := by
  decide

/-- C6 (amended): `save_object` truncates the target path in place and
then writes, so an uninterrupted save stores the new object but a
crash between the truncating open and the completed write loses the
previous contents; the write-to-temp-then-rename scheme the spec
prescribes (absent from file_methods.py, modelled as
`atomic_save_step`) would keep the previous version loadable at every
crash point before the rename completes. -/
theorem claimC6_save_not_atomic (α : Type) (obj old : α) (fs : SaveFS α) :
    load_object (save_object_run obj save_object_num_steps fs) = some obj ∧
    load_object (save_object_run obj 1
      { target := some (.complete old), temp := none }) = none ∧
    (∀ k, k < 3 →
      load_object (atomic_save_run obj k
        { target := some (.complete old), temp := none }) = some old) ∧
    load_object (atomic_save_run obj 3
      { target := some (.complete old), temp := none }) = some obj := by
  refine ⟨rfl, rfl, ?_, rfl⟩
  intro k hk
  interval_cases k <;> rfl

/-- C6 witness: the amended statement at a concrete filesystem holding
the object 7, overwritten by 0. -/
theorem claimC6_save_not_atomic_witness :
    load_object (save_object_run (0 : Nat) save_object_num_steps fs_with_old) = some 0 ∧
    (1 : Nat) < 3 ∧
    load_object (atomic_save_run (0 : Nat) 1
      { target := some (.complete 7), temp := none }) = some 7 :=
  ⟨(claimC6_save_not_atomic Nat 0 7 fs_with_old).1, by decide,
    (claimC6_save_not_atomic Nat 0 7 fs_with_old).2.2.1 1 (by decide)⟩

/-! ### Label rename validation -/

/-- C7: section labels stay unique under rename.  A rename whose new
label equals another existing Section's label is rejected: the section
list (hence both labels) is unchanged and the duplicate-label warning
is logged; a rename to a non-colliding label is applied to the renamed
section only; and `validate_label` preserves uniqueness of the label
collection. -/
theorem claimC7_rename_collision_rejected (pre post : List SectionCache)
    (self : SectionCache) (input : String) :
    (input ≠ self.label → input ∈ (pre ++ post).map SectionCache.label →
      validate_label pre post self input = (pre ++ self :: post, true)) ∧
    (input ∉ (pre ++ post).map SectionCache.label →
      validate_label pre post self input
        = (pre ++ { self with label := input } :: post,
            false)) ∧
    (((pre ++ self :: post).map SectionCache.label).Nodup →
      ((validate_label pre post self input).1.map SectionCache.label).Nodup) := by
  refine ⟨?_, ?_, ?_⟩
  · intro hne hmem
    have hmem' : input ∈ (pre ++ self :: post).map SectionCache.label := by
      simp only [List.map_append, List.mem_append, List.map_cons, List.mem_cons] at hmem ⊢
      tauto
    rw [validate_label, if_neg hne, if_pos hmem']
  · intro hnot
    by_cases heq : input = self.label
    · subst heq
      rw [validate_label, if_pos rfl]
    · have hmem' : input ∉ (pre ++ self :: post).map SectionCache.label := by
        simp only [List.map_append, List.mem_append, List.map_cons, List.mem_cons] at hnot ⊢
        tauto
      rw [validate_label, if_neg heq, if_neg hmem']
  · intro hnd
    by_cases heq : input = self.label
    · rw [validate_label, if_pos heq]
      exact hnd
    · by_cases hmem : input ∈ (pre ++ self :: post).map SectionCache.label
      · rw [validate_label, if_neg heq, if_pos hmem]
        exact hnd
      · rw [validate_label, if_neg heq, if_neg hmem]
        simp only [List.map_append, List.map_cons] at hnd ⊢
        obtain ⟨hpre, hmid, hdisj⟩ := List.nodup_append.mp hnd
        obtain ⟨_, hpost⟩ := List.nodup_cons.mp hmid
        simp only [List.map_append, List.map_cons, List.mem_append, List.mem_cons] at hmem
        push_neg at hmem
        obtain ⟨h2a, _, h2c⟩ := hmem
        refine List.nodup_append.mpr ⟨hpre, List.nodup_cons.mpr ⟨h2c, hpost⟩, ?_⟩
        intro a ha hmem2
        rcases List.mem_cons.mp hmem2 with rfl | hmem3
        · exact h2a ha
        · exact hdisj ha (List.mem_cons_of_mem _ hmem3)

/-- C7 witness: with sections labelled "A" and "B", renaming "B" to
"A" is rejected with a warning and leaves the list unchanged, while
renaming "B" to "C" is applied. -/
theorem claimC7_rename_collision_rejected_witness :
    (("A" : String) ≠ (construct_cache "B" (0, 0) (0, 0) first_cycle_color).label ∧
      ("A" : String) ∈
        (([construct_cache "A" (0, 0) (0, 0) first_cycle_color] ++
          ([] : List SectionCache)).map SectionCache.label) ∧
      validate_label [construct_cache "A" (0, 0) (0, 0) first_cycle_color] []
          (construct_cache "B" (0, 0) (0, 0) first_cycle_color) "A"
        = ([construct_cache "A" (0, 0) (0, 0) first_cycle_color] ++
            construct_cache "B" (0, 0) (0, 0) first_cycle_color :: [], true)) ∧
    (("C" : String) ∉
        (([construct_cache "A" (0, 0) (0, 0) first_cycle_color] ++
          ([] : List SectionCache)).map SectionCache.label) ∧
      validate_label [construct_cache "A" (0, 0) (0, 0) first_cycle_color] []
          (construct_cache "B" (0, 0) (0, 0) first_cycle_color) "C"
        = ([construct_cache "A" (0, 0) (0, 0) first_cycle_color] ++
            { construct_cache "B" (0, 0) (0, 0) first_cycle_color with
              label := "C" } :: [], false)) :=
  ⟨⟨by decide, by decide,
    (claimC7_rename_collision_rejected
      [construct_cache "A" (0, 0) (0, 0) first_cycle_color] []
      (construct_cache "B" (0, 0) (0, 0) first_cycle_color) "A").1
        (by decide) (by decide)⟩,
   ⟨by decide,
    (claimC7_rename_collision_rejected
      [construct_cache "A" (0, 0) (0, 0) first_cycle_color] []
      (construct_cache "B" (0, 0) (0, 0) first_cycle_color) "C").2.1
        (by decide)⟩⟩

/-! ### Manual reference points and click handling -/

/-- C8 counterexample to the claim as stated: adding a natural-feature
reference point at frame 2 while a point at frame 5 is stored appends
it at the end, leaving the collection unsorted by frame index —
`on_click` never re-sorts after insertion. -/
theorem claimC8_cex :
    SortedByIndex [ref_at_5] ∧
    ¬ SortedByIndex
        (on_click click_env_frame2 id [ref_at_5] (0, 0) GLFW_PRESS true) := by
  refine ⟨by decide, by decide⟩

/-- C8 (amended): a click in natural-feature edit mode either leaves
the manual reference collection unchanged, removes one stored point
(the `del` keeps the remaining points in place, so removal from a
sorted collection leaves it sorted — unconditionally), or appends the
new point at the end without re-sorting; an appended collection is
sorted only when the clicked frame index is at least every stored
index.  (The collection is re-sorted only by the "use as natural
features" / "jump to next natural feature" UI actions.) -/
theorem claimC8_click_keeps_order_or_appends (env : ClickEnv)
    (normalizePos : ℚ × ℚ → ℚ × ℚ) (refs : List ReferencePoint)
    (pos : ℚ × ℚ) (action : Int) (mode : Bool) :
    (on_click env normalizePos refs pos action mode = refs ∨
      (∃ r ∈ refs, on_click env normalizePos refs pos action mode = refs.erase r) ∨
      on_click env normalizePos refs pos action mode
        = refs ++ [new_manual_ref env normalizePos pos]) ∧
    (SortedByIndex refs → ∀ r : ReferencePoint, SortedByIndex (refs.erase r)) ∧
    (SortedByIndex refs → (∀ r ∈ refs, r.index ≤ env.frame_index) →
      SortedByIndex (refs ++ [new_manual_ref env normalizePos pos])) := by
  refine ⟨?_, ?_, ?_⟩
  · rw [on_click]
    split
    · dsimp only
      split
      · next r hr =>
        refine Or.inr (Or.inl ⟨r, ?_, rfl⟩)
        exact List.mem_of_mem_filter (List.mem_of_find?_eq_some hr)
      · exact Or.inr (Or.inr rfl)
    · exact Or.inl rfl
  · intro hs r
    exact hs.sublist (List.erase_sublist _ _)
  · intro hs hmax
    rw [SortedByIndex, List.pairwise_append]
    refine ⟨hs, by simp, ?_⟩
    intro a ha b hb
    have hb' : b = new_manual_ref env normalizePos pos := by simpa using hb
    rw [hb']
    exact hmax a ha

/-- C8 witness: removing the frame-3 point from the sorted collection
[frame 3, frame 5] leaves it sorted, and clicking at frame 7 with only
the frame-5 point stored appends at the end and keeps the collection
sorted. -/
theorem claimC8_click_keeps_order_or_appends_witness :
    SortedByIndex [ref_at_3, ref_at_5] ∧
    SortedByIndex ([ref_at_3, ref_at_5].erase ref_at_3) ∧
    SortedByIndex [ref_at_5] ∧
    (∀ r ∈ [ref_at_5], r.index ≤
      ({ frame_index := 7, frame_size := (100, 100),
         timestamps := [] } : ClickEnv).frame_index) ∧
    SortedByIndex ([ref_at_5] ++
      [new_manual_ref
        { frame_index := 7, frame_size := (100, 100), timestamps := [] } id (0, 0)]) :=
  ⟨by decide,
   (claimC8_click_keeps_order_or_appends click_env_frame2 id [ref_at_3, ref_at_5]
      (0, 0) GLFW_PRESS true).2.1 (by decide) ref_at_3,
   by decide, by decide,
   (claimC8_click_keeps_order_or_appends
      { frame_index := 7, frame_size := (100, 100), timestamps := [] }
      id [ref_at_5] (0, 0) GLFW_PRESS true).2.2 (by decide) (by decide)⟩

/-! ### save_cache contents -/

/-- C9: `save_cache` writes the detected circle-marker positions only
when `detection_progress` equals 100.0 and an empty list otherwise,
while the section cache dicts, the manual reference positions and the
format version are always written. -/
theorem claimC9_save_cache_contents (st : OfflineCalibState) :
    (st.detection_progress = 100 →
      (save_cache st).circle_marker_positions = st.circle_marker_positions) ∧
    (st.detection_progress ≠ 100 →
      (save_cache st).circle_marker_positions = []) ∧
    (save_cache st).sections = st.sections.map Section.cache ∧
    (save_cache st).manual_ref_positions = st.manual_ref_positions ∧
    (save_cache st).version = session_data_version := by
  refine ⟨?_, ?_, rfl, rfl, rfl⟩
  · intro h
    simp [save_cache, h]
  · intro h
    simp [save_cache, h]

/-- C9 witness: the conditional marker persistence at two concrete
manager states, one with detection complete and one without. -/
theorem claimC9_save_cache_contents_witness :
    (({ sections := [], circle_marker_positions := [ref_at_5],
        manual_ref_positions := [], detection_progress := 100 }
          : OfflineCalibState).detection_progress = 100 ∧
      (save_cache
          { sections := [], circle_marker_positions := [ref_at_5],
            manual_ref_positions := [], detection_progress := 100 }).circle_marker_positions
        = [ref_at_5]) ∧
    (({ sections := [], circle_marker_positions := [ref_at_5],
        manual_ref_positions := [], detection_progress := 0 }
          : OfflineCalibState).detection_progress ≠ 100 ∧
      (save_cache
          { sections := [], circle_marker_positions := [ref_at_5],
            manual_ref_positions := [], detection_progress := 0 }).circle_marker_positions
        = []) :=
  ⟨⟨by decide,
    (claimC9_save_cache_contents
      { sections := [], circle_marker_positions := [ref_at_5],
        manual_ref_positions := [], detection_progress := 100 }).1 (by decide)⟩,
   ⟨by decide,
    (claimC9_save_cache_contents
      { sections := [], circle_marker_positions := [ref_at_5],
        manual_ref_positions := [], detection_progress := 0 }).2.1 (by decide)⟩⟩
